import Mathlib

/-!
# backlight_manager — verification of the daemon control loop and IPC protocol

Shallow embedding of the daemon variant of `backlight_manager` (the C file
shipped next to the Makefile).  C `int` values are modelled as `ℤ` (the
program's brightness values and percentages stay far below `2^31`, and the
claims under study are about arithmetic shape, not wrap-around).  C `double`
values are modelled as exact rationals `ℚ`; every concrete input evaluated
below keeps the C double computation exact (divisions by 100 of small
integers), so the model and the machine agree at those points.
-/

namespace BacklightManager

/-- C cast `(int)e` applied to a `double`: truncation toward zero
(floor for nonnegative values, ceiling for negative ones). -/
def cDoubleToInt (q : ℚ) : ℤ := if 0 ≤ q then ⌊q⌋ else ⌈q⌉

/-- `set_backlight_brightness(path, brightness, max_brightness)`:
the integer actually written to the `brightness` file, after the
clamping performed by the function (below 1 becomes 1, above
`max_brightness` becomes `max_brightness`). -/
def set_backlight_brightness (brightness max_brightness : ℤ) : ℤ :=
  if brightness < 1 then 1
  else if brightness > max_brightness then max_brightness
  else brightness

/-- `adjust_brightness(value, max_screen_brightness, config)`: reads the
current brightness (`current`), then writes
`current + (int)((max_screen_brightness / 100.0) * value)` clamped by
`set_backlight_brightness`.  Returns the written value. -/
def adjust_brightness (value max_screen_brightness current : ℤ) : ℤ :=
  set_backlight_brightness
    (current + cDoubleToInt ((max_screen_brightness : ℚ) / 100 * value))
    max_screen_brightness

/-- The fixed-layout IPC record `PipeData`
`{ int brightness_adjustment; bool ambient_mode; }`. -/
structure PipeData where
  brightness_adjustment : ℤ
  ambient_mode : Bool
deriving DecidableEq

/-- The loop-relevant configuration: `max_screen_brightness` (read once from
sysfs at startup, immutable afterwards), `config.min_brightness` (already
converted to an absolute value by
`config.min_brightness = (int)((max_screen_brightness / 100.0) * config.min_brightness)`),
and `config.brightness_factor`. -/
structure LoopConfig where
  max_screen_brightness : ℤ
  min_brightness : ℤ
  brightness_factor : ℚ
deriving DecidableEq

/-- The `min_brightness` conversion performed once at startup:
`(int)((max_screen_brightness / 100.0) * config.min_brightness)`. -/
def min_brightness_absolute (max_screen_brightness percent : ℤ) : ℤ :=
  cDoubleToInt ((max_screen_brightness : ℚ) / 100 * percent)

/-- The daemon's mutable state across loop iterations: the `ambient_mode`
and `brightness_adjustment` locals of `main`, plus the current content of
the sysfs brightness file (`actual_brightness` is assumed to read back the
last value written to `brightness`). -/
structure DState where
  ambient_mode : Bool
  brightness_adjustment : ℤ
  brightness : ℤ
deriving DecidableEq

/-- Phase 1 of a loop iteration: handling of the value returned by
`read_fifo`.  On `NULL` nothing happens; on a message the daemon adopts its
`brightness_adjustment` and runs the nested conditional on `ambient_mode`
exactly as written in the source:
`if (data->ambient_mode) { if (ambient_mode) ambient_mode = !data->ambient_mode;
else ambient_mode = data->ambient_mode; }`. -/
def processMessage (msg : Option PipeData) (s : DState) : DState :=
  match msg with
  | none => s
  | some d =>
      { s with
        brightness_adjustment := d.brightness_adjustment
        ambient_mode :=
          if d.ambient_mode then
            if s.ambient_mode then !d.ambient_mode else d.ambient_mode
          else s.ambient_mode }

/-- Phase 2 of a loop iteration: `if (brightness_adjustment != 0)
{ adjust_brightness(...); brightness_adjustment = 0; }`.  Returns the new
state and the list of values written to the brightness file. -/
def deltaStep (cfg : LoopConfig) (s : DState) : DState × List ℤ :=
  if s.brightness_adjustment ≠ 0 then
    let w := adjust_brightness s.brightness_adjustment
      cfg.max_screen_brightness s.brightness
    ({ s with brightness := w, brightness_adjustment := 0 }, [w])
  else (s, [])

/-- Phase 3 of a loop iteration: `if (ambient_mode) { ... }` — read the
sensor, multiply by `brightness_factor`, C-cast to `int`, take the larger of
that and the (absolute) `min_brightness`, write through
`set_backlight_brightness`. -/
def ambientStep (cfg : LoopConfig) (sensor : ℤ) (s : DState) : DState × List ℤ :=
  if s.ambient_mode then
    let tmp := cDoubleToInt ((sensor : ℚ) * cfg.brightness_factor)
    let bv := if tmp > cfg.min_brightness then tmp else cfg.min_brightness
    let w := set_backlight_brightness bv cfg.max_screen_brightness
    ({ s with brightness := w }, [w])
  else (s, [])

/-- One full iteration of `while (daemon_mode) { ... }`: drain at most one
message, apply a pending delta, recompute from the sensor if ambient mode is
on, then sleep (the sleep changes no modelled state).  Returns the new state
and the writes to the brightness file, in order. -/
def loopIter (cfg : LoopConfig) (msg : Option PipeData) (sensor : ℤ)
    (s : DState) : DState × List ℤ :=
  let s1 := processMessage msg s
  let r2 := deltaStep cfg s1
  let r3 := ambientStep cfg sensor r2.1
  (r3.1, r2.2 ++ r3.2)

/-- Outcome of the `read(fd, value, sizeof(PipeData))` call inside
`read_fifo`: a full record, zero bytes, or an error. -/
inductive ReadResult where
  | message (d : PipeData)
  | noData
  | readError
deriving DecidableEq

/-- `read_fifo(fd)`: returns the message or `NULL`; the second component
records whether the function called `perror` (it does so only on a negative
return from `read` or a failed `malloc`, never on zero bytes). -/
def read_fifo : ReadResult → Option PipeData × Bool
  | ReadResult.message d => (some d, false)
  | ReadResult.noData => (none, false)
  | ReadResult.readError => (none, true)

/-- The two filesystem artifacts owned by the daemon: the PID marker file
`/tmp/backlight_manager.pid` and the FIFO node `/tmp/backlight_manager.pipe`
(`true` = the node exists). -/
structure FsState where
  pid_file : Bool
  fifo_node : Bool
deriving DecidableEq

/-- The termination signals for which `start_daemon` installs
`signal_handler` (`signal(SIGTERM, signal_handler); signal(SIGINT, signal_handler);`). -/
inductive TermSignal where
  | sigterm
  | sigint
deriving DecidableEq

/-- `signal_handler(int signal)`: removes the PID file
(`remove(PID_FILE_PATH)`) and exits.  The handler ignores its argument and
touches no other filesystem node. -/
def signal_handler (_sig : TermSignal) (fs : FsState) : FsState :=
  { fs with pid_file := false }

/-- What `stop_daemon` observed in the PID marker file: `none` = the file
could not be opened, `some none` = the file opened but `fscanf` could not
parse a PID, `some (some pid)` = a PID was parsed. -/
def PidFileContent : Type := Option (Option ℤ)

/-- Observable outcome of `stop_daemon()`: which process (if any) received
`SIGTERM`, whether a failure was reported (`perror` on a missing file /
`Invalid PID file content` on a parse failure), and which nodes were
removed. -/
structure StopResult where
  signalled : Option ℤ
  reported_failure : Bool
  removed_pid_file : Bool
  removed_fifo : Bool
deriving DecidableEq

/-- `stop_daemon()`: on a missing PID file it reports and returns at once;
otherwise it signals the parsed PID (or reports the parse failure) and then
removes both the PID file and the FIFO node. -/
def stop_daemon : PidFileContent → StopResult
  | none => ⟨none, true, false, false⟩
  | some none => ⟨none, true, true, true⟩
  | some (some pid) => ⟨some pid, false, true, true⟩

/-- The `-k` branch of `main`: `stop_daemon(); exit(EXIT_SUCCESS);` — the
process exit code is 0 regardless of what `stop_daemon` reported. -/
def run_kill (c : PidFileContent) : StopResult × ℤ :=
  (stop_daemon c, 0)

/-- The command-line options accepted by the daemon variant of `main`
(`set_value` is 0 when no `-s` option is given, matching the
`int brightness_adjustment = 0;` default). -/
structure CliOpts where
  help : Bool
  ambient : Bool
  daemon : Bool
  kill : Bool
  print_status : Bool
  set_value : ℤ
deriving DecidableEq

/-- The IPC messages written by one invocation of `main`, given the parsed
options and whether the PID marker file was openable at startup:
`-h` and `-k` exit during option parsing, `-p` returns after printing, and
otherwise `write_fifo(brightness_adjustment, ambient_mode)` runs exactly
when the PID file exists and `-d` was not given
(`if (pid_file == NULL) { ... } else if (!daemon_mode) { write_fifo(...); }`). -/
def main_messages (opts : CliOpts) (pid_file_exists : Bool) : List PipeData :=
  if opts.help then []
  else if opts.kill then []
  else if opts.print_status then []
  else if pid_file_exists && !opts.daemon then
    [⟨opts.set_value, opts.ambient⟩]
  else []

/-! ## Helper lemmas -/

theorem cDoubleToInt_intCast (n : ℤ) : cDoubleToInt (n : ℚ) = n := by
  unfold cDoubleToInt
  split_ifs <;> simp

theorem cDoubleToInt_neg (q : ℚ) : cDoubleToInt (-q) = -cDoubleToInt q := by
  unfold cDoubleToInt
  rcases lt_trichotomy q 0 with h | h | h
  · rw [if_neg (not_le.mpr h), if_pos (by linarith), Int.floor_neg]
  · subst h
    norm_num
  · rw [if_pos h.le, if_neg (by simpa [neg_nonneg] using not_le.mpr h), Int.ceil_neg]

theorem deltaStep_ambient (cfg : LoopConfig) (s : DState) :
    ((deltaStep cfg s).1).ambient_mode = s.ambient_mode := by
  unfold deltaStep
  split <;> rfl

theorem ambientStep_ambient (cfg : LoopConfig) (sensor : ℤ) (s : DState) :
    ((ambientStep cfg sensor s).1).ambient_mode = s.ambient_mode := by
  unfold ambientStep
  split <;> rfl

theorem loopIter_ambient (cfg : LoopConfig) (msg : Option PipeData)
    (sensor : ℤ) (s : DState) :
    ((loopIter cfg msg sensor s).1).ambient_mode
      = (processMessage msg s).ambient_mode := by
  unfold loopIter
  rw [ambientStep_ambient, deltaStep_ambient]

theorem processMessage_some_ambient (d : PipeData) (s : DState) :
    (processMessage (some d) s).ambient_mode
      = Bool.xor s.ambient_mode d.ambient_mode := by
  cases hd : d.ambient_mode <;> cases hs : s.ambient_mode <;>
    simp [processMessage, hd, hs]

theorem decide_succ_mod_two (c : ℕ) :
    decide ((c + 1) % 2 = 1) = !decide (c % 2 = 1) := by
  rcases Nat.mod_two_eq_zero_or_one c with h | h
  · have h1 : (c + 1) % 2 = 1 := by omega
    simp [h, h1]
  · have h1 : (c + 1) % 2 = 0 := by omega
    simp [h, h1]

theorem le_set_backlight_of_le (mn mx v : ℤ) (hle : mn ≤ mx)
    (hv : mn ≤ v) : mn ≤ set_backlight_brightness v mx := by
  unfold set_backlight_brightness
  split_ifs <;> omega

/-! ## Claims -/

/-- Claim C1: for every initial state and every sequence of IPC messages
processed one per iteration by the control loop, the final
`ambient_mode` equals the initial value XORed with the parity of the number
of messages whose `ambient_mode` field is true; and a message whose
`ambient_mode` field is false never changes ambient mode. -/
theorem ambient_mode_xor_parity (cfg : LoopConfig) (init : DState)
    (items : List (PipeData × ℤ)) :
    ((items.foldl (fun s it => (loopIter cfg (some it.1) it.2 s).1)
        init).ambient_mode
      = Bool.xor init.ambient_mode
          (decide (items.countP (fun it => it.1.ambient_mode) % 2 = 1)))
    ∧ ∀ (v sensor : ℤ) (s : DState),
        ((loopIter cfg (some ⟨v, false⟩) sensor s).1).ambient_mode
          = s.ambient_mode := by
  constructor
  · induction items generalizing init with
    | nil => simp
    | cons it rest ih =>
        rw [List.foldl_cons, ih, loopIter_ambient, processMessage_some_ambient,
          List.countP_cons]
        cases h : it.1.ambient_mode
        · simp [h]
        · have hcount : (List.countP (fun it : PipeData × ℤ => it.1.ambient_mode)
              rest + if (true : Bool) = true then 1 else 0)
              = List.countP (fun it : PipeData × ℤ => it.1.ambient_mode) rest
                + 1 := by
            norm_num
          rw [hcount, decide_succ_mod_two]
          cases init.ambient_mode <;>
            cases hd : decide (List.countP
                (fun it : PipeData × ℤ => it.1.ambient_mode) rest % 2 = 1) <;>
              rfl
  · intro v sensor s
    rw [loopIter_ambient, processMessage_some_ambient]
    simp

/-- Counterexample to claim C2 as stated: with `max_screen_brightness = 150`,
current brightness 10 and a pending delta of 1, the loop writes
`10 + (int)(1.5) = 11`, while `10 + round(1.5) = 12` after clamping; the C
cast truncates instead of rounding. -/
theorem delta_step_truncates_not_rounds :
    (loopIter ⟨150, 0, 1⟩ none 0 ⟨false, 1, 10⟩).2 = [11]
    ∧ set_backlight_brightness (10 + round ((150 : ℚ) / 100 * 1)) 150 = 12
    ∧ (11 : ℤ) ≠ 12 := by
  refine ⟨?_, ?_, by decide⟩
  · norm_num [loopIter, processMessage, deltaStep, ambientStep,
      adjust_brightness, cDoubleToInt, set_backlight_brightness]
  · norm_num [set_backlight_brightness, round_eq]

/-- Claim C2 (amended): when the control loop applies a pending delta, the
value written is `currentAbsoluteBrightness` plus the *truncation toward
zero* (the C `(int)` cast, not round-to-nearest) of
`maxScreenBrightness / 100.0 * pendingBrightnessDelta`, clamped to
`[1, maxScreenBrightness]`, and `pendingBrightnessDelta` is reset to 0
afterwards. -/
theorem delta_step_apply_formula (cfg : LoopConfig) (sensor : ℤ) (s : DState)
    (h : s.brightness_adjustment ≠ 0) :
    ((loopIter cfg none sensor s).2).head?
      = some (set_backlight_brightness
          (s.brightness + cDoubleToInt
            ((cfg.max_screen_brightness : ℚ) / 100 * s.brightness_adjustment))
          cfg.max_screen_brightness)
    ∧ ((loopIter cfg none sensor s).1).brightness_adjustment = 0 := by
  cases hA : s.ambient_mode <;>
    simp [loopIter, processMessage, deltaStep, ambientStep, adjust_brightness,
      h, hA]

/-- Witness for `delta_step_apply_formula` at a concrete input. -/
theorem delta_step_apply_formula_witness :
    ((loopIter ⟨100, 0, 1⟩ none 0 ⟨false, 5, 50⟩).2).head?
      = some (set_backlight_brightness
          (50 + cDoubleToInt (((100 : ℤ) : ℚ) / 100 * ((5 : ℤ) : ℚ))) 100)
    ∧ ((loopIter ⟨100, 0, 1⟩ none 0 ⟨false, 5, 50⟩).1).brightness_adjustment
        = 0 :=
  delta_step_apply_formula ⟨100, 0, 1⟩ 0 ⟨false, 5, 50⟩ (by decide)

/-- Counterexample to claim C3 as stated: the claim quantifies over *every*
`maxScreenBrightness`; at `max_brightness = 0` the function writes 0, which
does not lie in `[1, 0]`. -/
theorem set_backlight_escapes_range_at_nonpositive_max :
    set_backlight_brightness 5 0 = 0
    ∧ ¬ (1 ≤ set_backlight_brightness 5 0
          ∧ set_backlight_brightness 5 0 ≤ 0) := by
  decide

/-- Claim C3 (amended): for every requested brightness value (including
negative and arbitrarily large inputs) and every `maxScreenBrightness ≥ 1`,
`set_backlight_brightness` writes a value inside `[1, maxScreenBrightness]`. -/
theorem set_backlight_within_range (b m : ℤ) (hm : 1 ≤ m) :
    1 ≤ set_backlight_brightness b m ∧ set_backlight_brightness b m ≤ m := by
  unfold set_backlight_brightness
  split_ifs <;> omega

/-- Witness for `set_backlight_within_range` at a concrete input. -/
theorem set_backlight_within_range_witness :
    1 ≤ set_backlight_brightness (-7) 10
    ∧ set_backlight_brightness (-7) 10 ≤ 10 :=
  set_backlight_within_range (-7) 10 (by decide)

/-- Counterexample to claim C4 as stated: starting from a filesystem where
both the PID file and the FIFO node exist, the installed termination
handler leaves the FIFO node in place — `signal_handler` only calls
`remove(PID_FILE_PATH)` before `exit(0)`. -/
theorem signal_handler_leaves_fifo_node :
    (signal_handler TermSignal.sigterm ⟨true, true⟩).fifo_node = true
    ∧ (signal_handler TermSignal.sigterm ⟨true, true⟩).fifo_node ≠ false := by
  decide

/-- Claim C4 (amended): for every termination signal (SIGTERM, SIGINT) the
installed handler deletes the PID marker file before the process exits, but
leaves the IPC channel node untouched (that node is only removed by
`stop_daemon`). -/
theorem signal_handler_removes_pid_only :
    ∀ (sig : TermSignal) (fs : FsState),
      (signal_handler sig fs).pid_file = false
      ∧ (signal_handler sig fs).fifo_node = fs.fifo_node
      ∧ ∀ pid : ℤ, (stop_daemon (some (some pid))).removed_fifo = true := by
  intro sig fs
  exact ⟨rfl, rfl, fun pid => rfl⟩

/-- Claim C5: for every sensor reading and every `brightness_factor`
(including zero or negative products), every value the ambient
recomputation step writes is at least the configured absolute minimum
(`min_brightness` percent converted once at startup using
`maxScreenBrightness`), provided the startup invariants
`1 ≤ maxScreenBrightness` and `0 ≤ min_brightness percent ≤ 100` hold. -/
theorem ambient_write_at_least_min (maxb p sensor : ℤ) (factor : ℚ)
    (s : DState) (hmax : 1 ≤ maxb) (hp0 : 0 ≤ p) (hp1 : p ≤ 100) :
    ∀ w ∈ (ambientStep ⟨maxb, min_brightness_absolute maxb p, factor⟩
        sensor s).2,
      min_brightness_absolute maxb p ≤ w := by
  have hq0 : (0 : ℚ) ≤ (maxb : ℚ) / 100 * p := by
    apply mul_nonneg
    · apply div_nonneg _ (by norm_num)
      exact_mod_cast (by linarith : (0 : ℤ) ≤ maxb)
    · exact_mod_cast hp0
  have hm0 : 0 ≤ min_brightness_absolute maxb p := by
    unfold min_brightness_absolute cDoubleToInt
    rw [if_pos hq0]
    exact Int.le_floor.mpr (by exact_mod_cast hq0)
  have hmle : min_brightness_absolute maxb p ≤ maxb := by
    unfold min_brightness_absolute cDoubleToInt
    rw [if_pos hq0]
    have hq : (maxb : ℚ) / 100 * p ≤ (maxb : ℚ) := by
      have h1 : (maxb : ℚ) / 100 * p ≤ (maxb : ℚ) / 100 * 100 := by
        apply mul_le_mul_of_nonneg_left _ (by positivity)
        exact_mod_cast hp1
      have h2 : (maxb : ℚ) / 100 * 100 = (maxb : ℚ) := by ring
      linarith
    calc ⌊(maxb : ℚ) / 100 * p⌋ ≤ ⌊(maxb : ℚ)⌋ := Int.floor_le_floor hq
      _ = maxb := Int.floor_intCast maxb
  intro w hw
  unfold ambientStep at hw
  cases hA : s.ambient_mode
  · rw [hA] at hw
    simp at hw
  · rw [hA] at hw
    simp at hw
    subst hw
    apply le_set_backlight_of_le _ _ _ hmle
    split_ifs with ht
    · omega
    · omega

/-- Witness for `ambient_write_at_least_min` at a concrete input: sensor
reading 5, `brightness_factor = 0` (zero product), `max = 100`,
`min_brightness = 10` percent, giving the absolute minimum 10, which is what
is written. -/
theorem ambient_write_at_least_min_witness :
    min_brightness_absolute 100 10 ≤ 10 := by
  have hmem : (10 : ℤ) ∈
      (ambientStep ⟨100, min_brightness_absolute 100 10, 0⟩ 5
        ⟨true, 0, 3⟩).2 := by
    have h10 : min_brightness_absolute 100 10 = 10 := by
      norm_num [min_brightness_absolute, cDoubleToInt]
    norm_num [ambientStep, cDoubleToInt, set_backlight_brightness, h10]
  exact ambient_write_at_least_min 100 10 5 0 ⟨true, 0, 3⟩ (by norm_num)
    (by norm_num) (by norm_num) 10 hmem

/-- Claim C6: a channel read that returns zero bytes yields `NULL` with no
error reported; the message phase leaves the state unchanged, and the loop
iteration then proceeds exactly to the delta and ambient steps (followed by
the sleep, which changes no modelled state). -/
theorem no_data_read_is_no_command :
    read_fifo ReadResult.noData = (none, false)
    ∧ (∀ s : DState, processMessage none s = s)
    ∧ ∀ (cfg : LoopConfig) (sensor : ℤ) (s : DState),
        loopIter cfg (read_fifo ReadResult.noData).1 sensor s
          = ((ambientStep cfg sensor (deltaStep cfg s).1).1,
             (deltaStep cfg s).2
               ++ (ambientStep cfg sensor (deltaStep cfg s).1).2) := by
  exact ⟨rfl, fun s => rfl, fun cfg sensor s => rfl⟩

/-- Counterexample to claim C7 as stated: starting brightness 50 with
`max = 100` and `d = 100`: the `+100` step saturates at 100, then the
`-100` step lands at the lower clamp 1, which is 49 units away from the
clamped starting value 50 — far outside the claimed one-unit tolerance. -/
theorem delta_roundtrip_fails_on_clamp :
    adjust_brightness (-100) 100 (adjust_brightness 100 100 50) = 1
    ∧ set_backlight_brightness 50 100 = 50
    ∧ ¬ (|(1 : ℤ) - 50| ≤ 1) := by
  have h1 : cDoubleToInt (((100 : ℤ) : ℚ) / 100 * ((100 : ℤ) : ℚ)) = 100 := by
    rw [show ((100 : ℤ) : ℚ) / 100 * ((100 : ℤ) : ℚ) = ((100 : ℤ) : ℚ) by
      norm_num, cDoubleToInt_intCast]
  have h2 : cDoubleToInt (((100 : ℤ) : ℚ) / 100 * ((-100 : ℤ) : ℚ)) = -100 := by
    rw [show ((100 : ℤ) : ℚ) / 100 * ((-100 : ℤ) : ℚ) = ((-100 : ℤ) : ℚ) by
      norm_num, cDoubleToInt_intCast]
  refine ⟨?_, by decide, by decide⟩
  unfold adjust_brightness
  rw [h1, h2]
  decide

/-- Claim C7 (amended): if the starting brightness lies in
`[1, maxScreenBrightness]` and the first `+d` application stays inside that
range without clamping, then applying `+d` and then immediately `-d`
restores exactly the clamped starting brightness (in particular within one
unit of it). -/
theorem delta_roundtrip_within_one (maxb d b : ℤ) (hb1 : 1 ≤ b)
    (hb2 : b ≤ maxb)
    (h1 : 1 ≤ b + cDoubleToInt ((maxb : ℚ) / 100 * d))
    (h2 : b + cDoubleToInt ((maxb : ℚ) / 100 * d) ≤ maxb) :
    adjust_brightness (-d) maxb (adjust_brightness d maxb b)
        = set_backlight_brightness b maxb
    ∧ |adjust_brightness (-d) maxb (adjust_brightness d maxb b)
        - set_backlight_brightness b maxb| ≤ 1 := by
  have hneg : cDoubleToInt ((maxb : ℚ) / 100 * ((-d : ℤ) : ℚ))
      = -cDoubleToInt ((maxb : ℚ) / 100 * d) := by
    rw [show (maxb : ℚ) / 100 * ((-d : ℤ) : ℚ)
        = -((maxb : ℚ) / 100 * d) by push_cast; ring, cDoubleToInt_neg]
  have e1 : adjust_brightness d maxb b
      = b + cDoubleToInt ((maxb : ℚ) / 100 * d) := by
    unfold adjust_brightness set_backlight_brightness
    split_ifs <;> omega
  have e2 : adjust_brightness (-d) maxb
      (b + cDoubleToInt ((maxb : ℚ) / 100 * d)) = b := by
    unfold adjust_brightness
    rw [hneg, show b + cDoubleToInt ((maxb : ℚ) / 100 * d)
        + -cDoubleToInt ((maxb : ℚ) / 100 * d) = b by ring]
    unfold set_backlight_brightness
    split_ifs <;> omega
  have e3 : set_backlight_brightness b maxb = b := by
    unfold set_backlight_brightness
    split_ifs <;> omega
  rw [e1, e2, e3]
  exact ⟨rfl, by simp⟩

/-- Witness for `delta_roundtrip_within_one` at a concrete input. -/
theorem delta_roundtrip_within_one_witness :
    adjust_brightness (-10) 100 (adjust_brightness 10 100 50)
        = set_backlight_brightness 50 100
    ∧ |adjust_brightness (-10) 100 (adjust_brightness 10 100 50)
        - set_backlight_brightness 50 100| ≤ 1 :=
  delta_roundtrip_within_one 100 10 50 (by norm_num) (by norm_num)
    (by norm_num [cDoubleToInt]) (by norm_num [cDoubleToInt])

/-- Claim C8: when the PID marker file is absent or its content is
unparseable, `stop_daemon` reports the failure and signals no process, and
the invoking `--kill` command still exits with code 0. -/
theorem stop_without_pid_reports_and_exits_zero (c : PidFileContent)
    (h : c = none ∨ c = some none) :
    (run_kill c).1.signalled = none
    ∧ (run_kill c).1.reported_failure = true
    ∧ (run_kill c).2 = 0 := by
  rcases h with h | h <;> subst h <;> exact ⟨rfl, rfl, rfl⟩

/-- Witness for `stop_without_pid_reports_and_exits_zero` at a concrete
input (an absent PID file). -/
theorem stop_without_pid_reports_and_exits_zero_witness :
    (run_kill (none : PidFileContent)).1.signalled = none
    ∧ (run_kill (none : PidFileContent)).1.reported_failure = true
    ∧ (run_kill (none : PidFileContent)).2 = 0 :=
  stop_without_pid_reports_and_exits_zero none (Or.inl rfl)

/-- Claim C9: in a loop iteration with no IPC message, a zero pending delta
and ambient mode off, nothing is written to the brightness file and the
daemon state is unchanged (and `max_screen_brightness` lives in the
immutable `LoopConfig`, untouched by every iteration). -/
theorem idle_iteration_no_write_no_change (cfg : LoopConfig) (sensor : ℤ)
    (s : DState) (h0 : s.brightness_adjustment = 0)
    (ha : s.ambient_mode = false) :
    loopIter cfg none sensor s = (s, []) := by
  simp [loopIter, processMessage, deltaStep, ambientStep, h0, ha]

/-- Witness for `idle_iteration_no_write_no_change` at a concrete input. -/
theorem idle_iteration_no_write_no_change_witness :
    loopIter ⟨100, 10, 2⟩ none 7 ⟨false, 0, 42⟩ = (⟨false, 0, 42⟩, []) :=
  idle_iteration_no_write_no_change ⟨100, 10, 2⟩ 7 ⟨false, 0, 42⟩ rfl rfl

/-- Claim C10: while the PID marker file exists, an invocation with none of
`--daemon`, `--kill`, `--help`, `--print-status` writes exactly one IPC
message `{brightness_adjustment, ambient_mode}`; an invocation with no `-s`
or `-a` flag sends `{0, false}`, and a received zero delta overwrites any
unconsumed pending delta in the daemon. -/
theorem client_sends_exactly_one_message (a : Bool) (v : ℤ) :
    main_messages ⟨false, a, false, false, false, v⟩ true = [⟨v, a⟩]
    ∧ main_messages ⟨false, false, false, false, false, 0⟩ true
        = [⟨0, false⟩]
    ∧ ∀ s : DState,
        (processMessage (some ⟨0, false⟩) s).brightness_adjustment = 0 := by
  exact ⟨rfl, rfl, fun s => rfl⟩

end BacklightManager
